import Mathlib

/-!
Shallow embedding of the `extend_mut` crate (src/lib.rs, src/impls.rs,
src/aborts.rs) and verification of its specification.

Modelling choices:
- A Rust exclusive reference `&mut T` is identified by its address, as the
  crate itself does (`ptr::from_mut`): `MutRef T` holds an address.
- Mutable memory reachable by a callback is an explicit state `σ` threaded
  through every computation; a callback receives the widened reference and
  the current state and produces a new state.
- A computation's result is an `Outcome`: normal completion (`ok`), a panic
  unwinding out of it (`unwound`), an unconditional process abort carrying
  the message printed (`aborted`), or a failed `const { assert!(..) }`
  block, which in Rust rejects the program at compile time
  (`compileError`).
- `size_of::<T>()` is modelled by the `RustSized` class.
-/

/-- Result of running a piece of the embedded program: normal completion,
a panic unwinding out of the call, an unconditional process abort with the
message printed on the way out, or a failed compile-time assertion (the
program is rejected before it can run). -/
inductive Outcome (α : Type) where
  | ok : α → Outcome α
  | unwound : Outcome α
  | aborted : String → Outcome α
  | compileError : Outcome α
deriving DecidableEq, Repr

/-- Model of `aborts.rs` `abort_no_unwind`: prints the message and
unconditionally terminates the process. -/
def abort_no_unwind {α : Type} (msg : String) : Outcome α :=
  .aborted msg

/-- Model of `aborts.rs` `abort_on_unwind` (the `std`, non-test version):
runs `f`; if `f` unwinds, the unwind is caught and converted into an
unconditional abort; every other outcome passes through unchanged. -/
def abort_on_unwind {α : Type} (f : Outcome α) : Outcome α :=
  match f with
  | .unwound => abort_no_unwind "ExtendMut: Function cannot unwind"
  | .ok a => .ok a
  | .aborted m => .aborted m
  | .compileError => .compileError

/-- An exclusive (`&mut T`) reference, identified — as the crate does via
`ptr::from_mut` — by its address. -/
structure MutRef (T : Type) where
  addr : Nat
deriving DecidableEq, Repr

/-- Model of Rust's `size_of::<T>()` as a per-type constant. -/
class RustSized (T : Type) where
  size : Nat

/-- The value of `size_of::<T>()`. -/
def size_of (T : Type) [RustSized T] : Nat :=
  RustSized.size T

/-- Rust `i32` has size 4; used to instantiate theorems at concrete types. -/
instance : RustSized Int := ⟨4⟩

/-- Rust `u8` has size 1; used to instantiate theorems at concrete types. -/
instance : RustSized Bool := ⟨1⟩

/-- The `IntoExtendMutReturn<T, R>` trait of `lib.rs`: normalises a
callback result `Self` into the pair (extended reference/group, auxiliary
payload). -/
class IntoExtendMutReturn (Self : Type) (Ext : Type) (R : Type) where
  into_extend_mut_return : Self → Ext × R

export IntoExtendMutReturn (into_extend_mut_return)

/-- The impl `IntoExtendMutReturn<&mut T, R> for (&mut T, R)`
(impls.rs lines 109-114): the pair is already normalised. -/
instance instIntoPair {T R : Type} : IntoExtendMutReturn (MutRef T × R) (MutRef T) R :=
  ⟨fun s => s⟩

/-- The impl `IntoExtendMutReturn<&mut T, ()> for &mut T`
(impls.rs lines 116-121): a bare reference pairs itself with `()`. -/
instance instIntoBare {T : Type} : IntoExtendMutReturn (MutRef T) (MutRef T) Unit :=
  ⟨fun s => (s, ())⟩

/-- Model of `extend_mut` (lib.rs lines 105-123). The compile-time
assertion `size_of::<T>() != 0` is modelled as a `compileError` outcome;
otherwise: capture the address, hand `f` a widened alias with the same
address, run it under `abort_on_unwind`, normalise the result, compare the
returned reference's address with the captured one, abort on mismatch and
return the auxiliary payload on match. -/
def extend_mut {T σ ER R : Type} [RustSized T] [IntoExtendMutReturn ER (MutRef T) R]
    (mut_ref : MutRef T) (st : σ) (f : MutRef T → σ → Outcome (σ × ER)) :
    Outcome (σ × R) :=
  if size_of T = 0 then .compileError else
  let ptr := mut_ref.addr
  match abort_on_unwind (f (MutRef.mk ptr) st) with
  | .ok (st', ret) =>
    let en := @into_extend_mut_return ER (MutRef T) R _ ret
    if ptr ≠ en.1.addr then
      abort_no_unwind "ExtendMut: Pointer changed"
    else
      .ok (st', en.2)
  | .unwound => .unwound
  | .aborted m => .aborted m
  | .compileError => .compileError

/-- Rust 1-tuples `(A,)`, which Lean does not have natively: the group
impls in impls.rs distinguish `(&mut T,)` from `&mut T`. -/
structure Tup1 (A : Type) where
  fst : A
deriving DecidableEq, Repr

/-- The "any" tuple impl of `impl_into_extend_mut` at arity 1:
`IntoExtendMutReturn<(&mut T1,), R> for ((&mut T1,), R)`. -/
instance instIntoAny1 {T1 R : Type} :
    IntoExtendMutReturn (Tup1 (MutRef T1) × R) (Tup1 (MutRef T1)) R :=
  ⟨fun s => s⟩

/-- The "unit" tuple impl of `impl_into_extend_mut` at arity 1:
`IntoExtendMutReturn<(&mut T1,), ()> for (&mut T1,)`. -/
instance instIntoUnit1 {T1 : Type} :
    IntoExtendMutReturn (Tup1 (MutRef T1)) (Tup1 (MutRef T1)) Unit :=
  ⟨fun s => (s, ())⟩

/-- The "any" tuple impl at arity 2. -/
instance instIntoAny2 {T1 T2 R : Type} :
    IntoExtendMutReturn ((MutRef T1 × MutRef T2) × R) (MutRef T1 × MutRef T2) R :=
  ⟨fun s => s⟩

/-- The "unit" tuple impl at arity 2. -/
instance instIntoUnit2 {T1 T2 : Type} :
    IntoExtendMutReturn (MutRef T1 × MutRef T2) (MutRef T1 × MutRef T2) Unit :=
  ⟨fun s => (s, ())⟩

/-- The "any" tuple impl at arity 3. -/
instance instIntoAny3 {T1 T2 T3 R : Type} :
    IntoExtendMutReturn ((MutRef T1 × MutRef T2 × MutRef T3) × R)
      (MutRef T1 × MutRef T2 × MutRef T3) R :=
  ⟨fun s => s⟩

/-- The "unit" tuple impl at arity 3. -/
instance instIntoUnit3 {T1 T2 T3 : Type} :
    IntoExtendMutReturn (MutRef T1 × MutRef T2 × MutRef T3)
      (MutRef T1 × MutRef T2 × MutRef T3) Unit :=
  ⟨fun s => (s, ())⟩

/-- The "any" tuple impl at arity 4. -/
instance instIntoAny4 {T1 T2 T3 T4 R : Type} :
    IntoExtendMutReturn ((MutRef T1 × MutRef T2 × MutRef T3 × MutRef T4) × R)
      (MutRef T1 × MutRef T2 × MutRef T3 × MutRef T4) R :=
  ⟨fun s => s⟩

/-- The "unit" tuple impl at arity 4. -/
instance instIntoUnit4 {T1 T2 T3 T4 : Type} :
    IntoExtendMutReturn (MutRef T1 × MutRef T2 × MutRef T3 × MutRef T4)
      (MutRef T1 × MutRef T2 × MutRef T3 × MutRef T4) Unit :=
  ⟨fun s => (s, ())⟩

/-- The `ExtendMut<'b>` trait of lib.rs. Lifetimes are erased in the
model, so the associated type `Extended` coincides with `Self`; it is kept
as a second class parameter for fidelity. -/
class ExtendMut (Self : Type) (Extended : outParam Type) where
  extend_mut : {σ R ER : Type} → [IntoExtendMutReturn ER Extended R] →
    Self → σ → (Extended → σ → Outcome (σ × ER)) → Outcome (σ × R)

/-- The scalar impl `ExtendMut<'b> for &'a mut T` (impls.rs lines
126-143): delegates to the free function `extend_mut`. -/
instance instEMScalar {T : Type} [RustSized T] : ExtendMut (MutRef T) (MutRef T) where
  extend_mut self st f := extend_mut self st f

/-- The empty-group impl `ExtendMut<'b> for ()` (impls.rs lines 145-162):
`f(()).into_extend_mut_return().1` — invoke `f` directly (no
`abort_on_unwind` wrapper, no address capture or check) and project the
auxiliary payload. -/
instance instEMUnit : ExtendMut Unit Unit where
  extend_mut {σ R ER} inst _ st f :=
    match f () st with
    | .ok (st', er) => .ok (st', (inst.into_extend_mut_return er).2)
    | .unwound => .unwound
    | .aborted m => .aborted m
    | .compileError => .compileError

/-- The singleton impl generated by `impl_extend_mut_many` (impls.rs
lines 52-78): peel the single reference through the scalar primitive,
re-wrapping the returned reference into a 1-tuple. -/
instance instEM1 {T1 : Type} [RustSized T1] :
    ExtendMut (Tup1 (MutRef T1)) (Tup1 (MutRef T1)) where
  extend_mut {σ R ER} inst self st f :=
    extend_mut self.fst st (fun x st1 =>
      match f (Tup1.mk x) st1 with
      | .ok (st2, er) =>
        let (t, r) := inst.into_extend_mut_return er
        .ok (st2, (t.fst, r))
      | .unwound => .unwound
      | .aborted m => .aborted m
      | .compileError => .compileError)

/-- The arity-2 impl generated by `impl_extend_mut_many` (impls.rs lines
79-107): extend the head through the scalar primitive; inside its
callback recursively extend the tail `(T2,)`; inside that, call the
user's `f` on the reassembled widened group and re-pair head with tail. -/
instance instEM2 {T1 T2 : Type} [RustSized T1] [RustSized T2] :
    ExtendMut (MutRef T1 × MutRef T2) (MutRef T1 × MutRef T2) where
  extend_mut {σ R ER} inst self st f :=
    let (x, t2) := self
    @extend_mut T1 σ (MutRef T1 × R) R _ _ x st (fun x1 st1 =>
      ExtendMut.extend_mut (Tup1.mk t2) st1 (fun tw st2 =>
        match f (x1, tw.fst) st2 with
        | .ok (st3, er) =>
          let ((x2, t2r), r) := inst.into_extend_mut_return er
          .ok (st3, (Tup1.mk t2r, (x2, r)))
        | .unwound => .unwound
        | .aborted m => .aborted m
        | .compileError => .compileError))

/-- The arity-3 impl generated by `impl_extend_mut_many`: head is peeled
through the scalar primitive, the tail pair is extended recursively. -/
instance instEM3 {T1 T2 T3 : Type} [RustSized T1] [RustSized T2] [RustSized T3] :
    ExtendMut (MutRef T1 × MutRef T2 × MutRef T3)
      (MutRef T1 × MutRef T2 × MutRef T3) where
  extend_mut {σ R ER} inst self st f :=
    let (x, t2, t3) := self
    @extend_mut T1 σ (MutRef T1 × R) R _ _ x st (fun x1 st1 =>
      ExtendMut.extend_mut (t2, t3) st1 (fun tw st2 =>
        match f (x1, tw.1, tw.2) st2 with
        | .ok (st3, er) =>
          let ((x2, t2r, t3r), r) := inst.into_extend_mut_return er
          .ok (st3, ((t2r, t3r), (x2, r)))
        | .unwound => .unwound
        | .aborted m => .aborted m
        | .compileError => .compileError))

/-- The arity-4 impl generated by `impl_extend_mut_many`: head is peeled
through the scalar primitive, the tail triple is extended recursively. -/
instance instEM4 {T1 T2 T3 T4 : Type}
    [RustSized T1] [RustSized T2] [RustSized T3] [RustSized T4] :
    ExtendMut (MutRef T1 × MutRef T2 × MutRef T3 × MutRef T4)
      (MutRef T1 × MutRef T2 × MutRef T3 × MutRef T4) where
  extend_mut {σ R ER} inst self st f :=
    let (x, t2, t3, t4) := self
    @extend_mut T1 σ (MutRef T1 × R) R _ _ x st (fun x1 st1 =>
      ExtendMut.extend_mut (t2, t3, t4) st1 (fun tw st2 =>
        match f (x1, tw.1, tw.2.1, tw.2.2) st2 with
        | .ok (st3, er) =>
          let ((x2, t2r, t3r, t4r), r) := inst.into_extend_mut_return er
          .ok (st3, ((t2r, t3r, t4r), (x2, r)))
        | .unwound => .unwound
        | .aborted m => .aborted m
        | .compileError => .compileError))

/-- Model of `core::task::Poll`. -/
inductive Poll (α : Type) where
  | Ready : α → Poll α
  | Pending : Poll α
deriving DecidableEq, Repr

/-- The future returned by `extend_mut_async` (lib.rs lines 125-144):
the captured address witness, the in-flight inner future, and the `ready`
completion flag. The `PhantomData` marker field carries no data and is
omitted. -/
structure ExtendMutFuture (T : Type) (Fut : Type) where
  ptr : Nat
  future : Fut
  ready : Bool
deriving DecidableEq, Repr

/-- Model of `ExtendMutFuture::poll` (lib.rs lines 153-178),
parameterised by the semantics `ip` of polling the inner future once: `ip`
takes the inner future's state and the memory and yields (new inner
future, new memory, `Poll`) — or unwinds, aborts, or fails to compile. If
`ready` is already set, return `Pending` without touching the inner
future. Otherwise poll the inner future under `abort_on_unwind`; on
`Ready`, normalise the result, compare the returned reference's address
against the stored witness, and either set `ready` and yield the payload
or abort. -/
def ExtendMutFuture.poll {T Fut σ ER R : Type} [IntoExtendMutReturn ER (MutRef T) R]
    (ip : Fut → σ → Outcome (Fut × σ × Poll ER))
    (self : ExtendMutFuture T Fut) (st : σ) :
    Outcome (ExtendMutFuture T Fut × σ × Poll R) :=
  let ptr := self.ptr
  if self.ready then .ok (self, st, .Pending) else
  match abort_on_unwind (ip self.future st) with
  | .ok (fut', st', .Ready ret) =>
    let en := @into_extend_mut_return ER (MutRef T) R _ ret
    if ptr = en.1.addr then
      .ok ({ self with future := fut', ready := true }, st', .Ready en.2)
    else
      abort_no_unwind "ExtendMut: Pointer changed"
  | .ok (fut', st', .Pending) => .ok ({ self with future := fut' }, st', .Pending)
  | .unwound => .unwound
  | .aborted m => .aborted m
  | .compileError => .compileError

/-- Model of the `PinnedDrop` impl for `ExtendMutFuture` (lib.rs lines
137-143): dropping the future aborts the process when the `ready` flag is
still unset, and is a no-op otherwise. -/
def ExtendMutFuture.drop {T Fut : Type} (self : ExtendMutFuture T Fut) : Outcome Unit :=
  if !self.ready then
    abort_no_unwind "Cannot drop ExtendMutFuture before it yields Poll::Ready"
  else
    .ok ()

/-- Model of `extend_mut_async` (lib.rs lines 197-217). After the
compile-time zero-size assertion: capture the address, call `f` (not
wrapped in `abort_on_unwind` — an unwind here propagates) on a widened
alias with the same address to build the inner future eagerly, and return
the future object with the captured witness and `ready := false`. No
polling and no address check happen here. -/
def extend_mut_async {T Fut σ : Type} [RustSized T]
    (mut_ref : MutRef T) (st : σ) (f : MutRef T → σ → Outcome (σ × Fut)) :
    Outcome (σ × ExtendMutFuture T Fut) :=
  if size_of T = 0 then .compileError else
  let ptr := mut_ref.addr
  match f (MutRef.mk ptr) st with
  | .ok (st', future) => .ok (st', { ptr := ptr, future := future, ready := false })
  | .unwound => .unwound
  | .aborted m => .aborted m
  | .compileError => .compileError

/-- Driver that polls an `ExtendMutFuture` `n + 1` times in sequence,
threading the future and the state through and stopping early on a
non-`ok` outcome; used to state the never-again-ready property over every
later poll. -/
def ExtendMutFuture.pollIter {T Fut σ ER R : Type} [i : IntoExtendMutReturn ER (MutRef T) R]
    (ip : Fut → σ → Outcome (Fut × σ × Poll ER)) :
    Nat → ExtendMutFuture T Fut → σ → Outcome (ExtendMutFuture T Fut × σ × Poll R)
  | 0, self, st => self.poll ip st
  | n + 1, self, st =>
    match @ExtendMutFuture.poll T Fut σ ER R i ip self st with
    | .ok (fut', st', _) => ExtendMutFuture.pollIter ip n fut' st'
    | .unwound => .unwound
    | .aborted m => .aborted m
    | .compileError => .compileError

/-- Rust `()` is a zero-sized type; used to instantiate the zero-size
rejection theorem at a concrete type. -/
instance : RustSized Unit := ⟨0⟩

/-- C7: `abort_on_unwind` returns the wrapped function's value only on
normal completion and converts an unwind into an unconditional abort; the
callback invocation in `extend_mut` and the inner-future poll in
`ExtendMutFuture::poll` are wrapped in it, so an unwinding callback makes
either primitive abort with the same message. -/
theorem abort_on_unwind_spec {T Fut σ ER R : Type} [RustSized T]
    [IntoExtendMutReturn ER (MutRef T) R] (v : σ × ER)
    (h : size_of T ≠ 0)
    (mr : MutRef T) (st : σ) (f : MutRef T → σ → Outcome (σ × ER))
    (hf : f mr st = .unwound)
    (ip : Fut → σ → Outcome (Fut × σ × Poll ER))
    (self : ExtendMutFuture T Fut)
    (hready : self.ready = false)
    (hip : ip self.future st = .unwound) :
    abort_on_unwind (.ok v) = .ok v ∧
    abort_on_unwind (α := σ × ER) .unwound =
      .aborted "ExtendMut: Function cannot unwind" ∧
    extend_mut (R := R) mr st f = .aborted "ExtendMut: Function cannot unwind" ∧
    ExtendMutFuture.poll (R := R) ip self st =
      .aborted "ExtendMut: Function cannot unwind" := by
  refine ⟨rfl, rfl, ?_, ?_⟩
  · rw [extend_mut]
    simp only [h, if_neg]
    rw [show MutRef.mk mr.addr = mr from rfl, hf]
    rfl
  · rw [ExtendMutFuture.poll]
    simp only [hready, hip]
    rfl

/-- C8: both `extend_mut` and `extend_mut_async` contain the compile-time
assertion `size_of::<T>() != 0`: with a zero-sized `T` neither call can
ever execute (the program is rejected at compile time). -/
theorem zero_sized_rejected {T Fut σ ER R : Type} [RustSized T]
    [IntoExtendMutReturn ER (MutRef T) R]
    (h : size_of T = 0)
    (mr : MutRef T) (st : σ) (f : MutRef T → σ → Outcome (σ × ER))
    (g : MutRef T → σ → Outcome (σ × Fut)) :
    extend_mut (R := R) mr st f = .compileError ∧
    extend_mut_async mr st g = .compileError := by
  constructor
  · rw [extend_mut]
    simp [h]
  · rw [extend_mut_async]
    simp [h]

/-- Witness for C7 at concrete inputs: an unwinding callback makes
`extend_mut` and `ExtendMutFuture::poll` abort. -/
theorem abort_on_unwind_spec_witness :
    abort_on_unwind (.ok ((0 : Int), ((MutRef.mk 5 : MutRef Int), "a"))) =
      .ok ((0 : Int), ((MutRef.mk 5 : MutRef Int), "a")) ∧
    abort_on_unwind (α := Int × (MutRef Int × String)) .unwound =
      .aborted "ExtendMut: Function cannot unwind" ∧
    extend_mut (R := String) (MutRef.mk 5 : MutRef Int) (0 : Int)
      (fun (_ : MutRef Int) (_ : Int) =>
        (.unwound : Outcome (Int × (MutRef Int × String)))) =
      .aborted "ExtendMut: Function cannot unwind" ∧
    ExtendMutFuture.poll (R := String)
      (fun (_ : Nat) (_ : Int) =>
        (.unwound : Outcome (Nat × Int × Poll (MutRef Int × String))))
      (ExtendMutFuture.mk 5 0 false : ExtendMutFuture Int Nat) 0 =
      .aborted "ExtendMut: Function cannot unwind" :=
  abort_on_unwind_spec ((0 : Int), (MutRef.mk 5, "a")) (by decide)
    (MutRef.mk 5) 0 _ rfl _ (ExtendMutFuture.mk 5 0 false) rfl rfl

/-- Witness for C8 at the concrete zero-sized type `()`: both primitives
are rejected. -/
theorem zero_sized_rejected_witness :
    extend_mut (R := String) (MutRef.mk 0) (0 : Int)
      (fun (_ : MutRef Unit) (_ : Int) =>
        (.unwound : Outcome (Int × (MutRef Unit × String)))) = .compileError ∧
    extend_mut_async (MutRef.mk 0) (0 : Int)
      (fun (_ : MutRef Unit) (_ : Int) => (.ok (0, 7) : Outcome (Int × Nat))) =
      .compileError :=
  zero_sized_rejected (by decide) (MutRef.mk 0) 0 _ _

/-- C10: `extend_mut_async` runs the callback eagerly, during the call
itself: the widened alias handed to `f` carries the original reference's
address, `f`'s effect on the state (including an unwind) is visible in
`extend_mut_async`'s own result, and the returned future stores the
original address as witness with `ready := false` — no poll has happened
and no address check is performed at creation. -/
theorem extend_mut_async_eager {T Fut σ : Type} [RustSized T]
    (h : size_of T ≠ 0)
    (mr : MutRef T) (st : σ) (f : MutRef T → σ → Outcome (σ × Fut))
    (st' : σ) (fut : Fut)
    (hf : f (MutRef.mk mr.addr) st = .ok (st', fut))
    (g : MutRef T → σ → Outcome (σ × Fut))
    (hg : g (MutRef.mk mr.addr) st = .unwound) :
    extend_mut_async mr st f =
      .ok (st', { ptr := mr.addr, future := fut, ready := false }) ∧
    extend_mut_async mr st g = .unwound := by
  constructor
  · simp only [extend_mut_async]
    rw [hf]
    simp [h]
  · simp only [extend_mut_async]
    rw [hg]
    simp [h]

/-- Witness for C10 at concrete inputs. -/
theorem extend_mut_async_eager_witness :
    extend_mut_async (MutRef.mk 9) (5 : Int)
      (fun (_ : MutRef Int) (s : Int) => (.ok (s + 1, 3) : Outcome (Int × Nat))) =
      .ok (6, { ptr := 9, future := 3, ready := false }) ∧
    extend_mut_async (MutRef.mk 9) (5 : Int)
      (fun (_ : MutRef Int) (_ : Int) => (.unwound : Outcome (Int × Nat))) =
      .unwound :=
  extend_mut_async_eager (by decide) (MutRef.mk 9) 5 _ 6 3 rfl _ rfl

/-- C3: auxiliary payloads pass through unchanged: a callback that
mutates the state by `u` and returns the reference it was given together
with payload `tag` makes `extend_mut` return `tag` and leave the state as
the callback left it; in particular with `x = 5` and a callback that adds
2 and returns `"hi"`, the call returns `"hi"` and leaves `x = 7`. -/
theorem extend_mut_payload_passthrough {T σ R : Type} [RustSized T]
    (h : size_of T ≠ 0)
    (mr : MutRef T) (st : σ) (u : σ → σ) (tag : R) :
    extend_mut mr st
      (fun r s => (.ok (u s, (r, tag)) : Outcome (σ × (MutRef T × R)))) =
      .ok (u st, tag) ∧
    extend_mut (MutRef.mk 100) (5 : Int)
      (fun r s => (.ok (s + 2, (r, "hi")) : Outcome (Int × (MutRef Int × String)))) =
      .ok (7, "hi") := by
  constructor
  · simp [extend_mut, abort_on_unwind, h, into_extend_mut_return, instIntoPair]
  · rfl

/-- Witness for C3 at concrete inputs: the general pass-through part
applied with `x = 5`, the mutation `+ 2` and the tag `"hi"`. -/
theorem extend_mut_payload_passthrough_witness :
    extend_mut (MutRef.mk 100) (5 : Int)
      (fun r s => (.ok (s + 2, (r, "hi")) : Outcome (Int × (MutRef Int × String)))) =
      .ok (7, "hi") :=
  (extend_mut_payload_passthrough (by decide) (MutRef.mk 100) (5 : Int)
    (fun s => s + 2) "hi").1

/-- C1: for a pure callback that returns the identical reference it was
given, `extend_mut` is observationally equal to calling the callback on
the original reference directly: the final state is the state the direct
call produces and the auxiliary result is the direct call's result. Both
accepted callback shapes are covered: a bare returned reference (whose
auxiliary result is `()`) and a reference paired with a result. -/
theorem extend_mut_identity_observational {T σ R : Type} [RustSized T]
    (h : size_of T ≠ 0) (mr : MutRef T) (st : σ)
    (g : MutRef T → σ → σ × MutRef T)
    (hg : ∀ r s, (g r s).2 = r)
    (p : MutRef T → σ → σ × (MutRef T × R))
    (hp : ∀ r s, (p r s).2.1 = r) :
    extend_mut mr st (fun r s => (.ok (g r s) : Outcome (σ × MutRef T))) =
      .ok ((g mr st).1, ()) ∧
    extend_mut mr st (fun r s => (.ok (p r s) : Outcome (σ × (MutRef T × R)))) =
      .ok ((p mr st).1, (p mr st).2.2) := by
  constructor
  · rw [extend_mut]
    simp only [h, if_neg]
    rw [show MutRef.mk mr.addr = mr from rfl]
    simp [abort_on_unwind, into_extend_mut_return, instIntoBare, hg]
  · rw [extend_mut]
    simp only [h, if_neg]
    rw [show MutRef.mk mr.addr = mr from rfl]
    simp [abort_on_unwind, into_extend_mut_return, instIntoPair, hp]

/-- Witness for C1 at concrete inputs: the identity-returning callbacks
`fun r s => (s + 1, r)` and `fun r s => (s + 1, (r, "ok"))`. -/
theorem extend_mut_identity_observational_witness :
    extend_mut (MutRef.mk 100 : MutRef Int) (5 : Int)
      (fun r s => (.ok (s + 1, r) : Outcome (Int × MutRef Int))) =
      .ok (6, ()) ∧
    extend_mut (MutRef.mk 100 : MutRef Int) (5 : Int)
      (fun r s => (.ok (s + 1, (r, "ok")) : Outcome (Int × (MutRef Int × String)))) =
      .ok (6, "ok") :=
  extend_mut_identity_observational (by decide) (MutRef.mk 100) 5
    (fun r s => (s + 1, r)) (fun _ _ => rfl)
    (fun r s => (s + 1, (r, "ok"))) (fun _ _ => rfl)

/-- C2: a callback returning a reference whose address differs from the
captured one makes the primitive abort with "ExtendMut: Pointer changed"
instead of returning: `extend_mut` aborts right after the callback
returns, and `ExtendMutFuture::poll` aborts on the poll in which the
inner future completes with the differing reference. -/
theorem pointer_changed_abort {T Fut σ ER R : Type} [RustSized T]
    [IntoExtendMutReturn ER (MutRef T) R]
    (h : size_of T ≠ 0) (mr : MutRef T) (st st' : σ)
    (f : MutRef T → σ → Outcome (σ × ER)) (ret : ER)
    (hf : f (MutRef.mk mr.addr) st = .ok (st', ret))
    (hne : (@into_extend_mut_return ER (MutRef T) R _ ret).1.addr ≠ mr.addr)
    (ip : Fut → σ → Outcome (Fut × σ × Poll ER))
    (self : ExtendMutFuture T Fut) (fut' : Fut) (st2 : σ) (ret2 : ER)
    (hready : self.ready = false)
    (hip : ip self.future st = .ok (fut', st2, .Ready ret2))
    (hne2 : (@into_extend_mut_return ER (MutRef T) R _ ret2).1.addr ≠ self.ptr) :
    extend_mut (R := R) mr st f = .aborted "ExtendMut: Pointer changed" ∧
    ExtendMutFuture.poll (R := R) ip self st =
      .aborted "ExtendMut: Pointer changed" := by
  constructor
  · rw [extend_mut]
    simp only [h, if_neg]
    rw [hf]
    simp only [abort_on_unwind]
    rw [if_pos (Ne.symm hne)]
    rfl
  · rw [ExtendMutFuture.poll]
    simp only [hready, hip, Bool.false_eq_true, if_false]
    simp only [abort_on_unwind]
    rw [if_neg (fun hh => hne2 (Eq.symm hh))]
    rfl

/-- Witness for C2 at concrete inputs: callbacks that return the
different reference at address 101 while the original lives at 100. -/
theorem pointer_changed_abort_witness :
    extend_mut (R := String) (MutRef.mk 100 : MutRef Int) (5 : Int)
      (fun _ s => (.ok (s, (MutRef.mk 101, "hi")) :
        Outcome (Int × (MutRef Int × String)))) =
      .aborted "ExtendMut: Pointer changed" ∧
    ExtendMutFuture.poll (R := String)
      (fun (_ : Nat) (s : Int) =>
        (.ok (0, s, .Ready (MutRef.mk 101, "hi")) :
          Outcome (Nat × Int × Poll (MutRef Int × String))))
      (ExtendMutFuture.mk 100 7 false : ExtendMutFuture Int Nat) (5 : Int) =
      .aborted "ExtendMut: Pointer changed" :=
  pointer_changed_abort (by decide) (MutRef.mk 100) 5 5 _ (MutRef.mk 101, "hi")
    rfl (by decide) _ (ExtendMutFuture.mk 100 7 false) 0 5 (MutRef.mk 101, "hi")
    rfl rfl (by decide)

/-- Helper: a future whose `ready` flag is set answers every poll with
`Pending` and stays unchanged (lib.rs lines 158-160). -/
theorem poll_pending_of_ready {T Fut σ ER R : Type}
    [IntoExtendMutReturn ER (MutRef T) R]
    (ip : Fut → σ → Outcome (Fut × σ × Poll ER))
    (self : ExtendMutFuture T Fut) (st : σ)
    (hr : self.ready = true) :
    ExtendMutFuture.poll (R := R) ip self st = .ok (self, st, .Pending) := by
  rw [ExtendMutFuture.poll]
  simp [hr]

/-- Helper: inversion of a poll that yields `Ready`: the flag was still
unset, the inner future completed in this very poll, the address check
succeeded, the released payload is the normalised auxiliary result, and
the returned future is the old one with `ready` set. -/
theorem poll_ready_inversion {T Fut σ ER R : Type}
    [IntoExtendMutReturn ER (MutRef T) R]
    (ip : Fut → σ → Outcome (Fut × σ × Poll ER))
    (self : ExtendMutFuture T Fut) (st : σ)
    (fut' : ExtendMutFuture T Fut) (st2 : σ) (r : R)
    (hpoll : ExtendMutFuture.poll ip self st = .ok (fut', st2, .Ready r)) :
    self.ready = false ∧
    ∃ fut2 ret, ip self.future st = .ok (fut2, st2, .Ready ret) ∧
      (@into_extend_mut_return ER (MutRef T) R _ ret).1.addr = self.ptr ∧
      r = (@into_extend_mut_return ER (MutRef T) R _ ret).2 ∧
      fut' = { self with future := fut2, ready := true } := by
  rw [ExtendMutFuture.poll] at hpoll
  cases hr : self.ready with
  | true =>
    rw [hr] at hpoll
    simp at hpoll
  | false =>
    rw [hr] at hpoll
    simp only [Bool.false_eq_true, if_false] at hpoll
    refine ⟨rfl, ?_⟩
    cases hip : ip self.future st with
    | ok v =>
      obtain ⟨fut2, st3, pl⟩ := v
      rw [hip] at hpoll
      cases pl with
      | Ready ret =>
        simp only [abort_on_unwind] at hpoll
        by_cases heq : self.ptr =
            (@into_extend_mut_return ER (MutRef T) R _ ret).1.addr
        · rw [if_pos heq] at hpoll
          simp only [Outcome.ok.injEq, Prod.mk.injEq, Poll.Ready.injEq] at hpoll
          obtain ⟨hfut, hst, hrr⟩ := hpoll
          refine ⟨fut2, ret, ?_, heq.symm, hrr.symm, hfut.symm⟩
          rw [hst]
        · rw [if_neg heq] at hpoll
          exact absurd hpoll (by simp [abort_no_unwind])
      | Pending =>
        simp [abort_on_unwind] at hpoll
    | unwound =>
      rw [hip] at hpoll
      simp [abort_on_unwind, abort_no_unwind] at hpoll
    | aborted m =>
      rw [hip] at hpoll
      simp [abort_on_unwind, abort_no_unwind] at hpoll
    | compileError =>
      rw [hip] at hpoll
      simp [abort_on_unwind] at hpoll

/-- C6: the future yields `Ready` exactly once. A future whose `ready`
flag is set answers every later poll — any number of steps ahead — with
`Pending`, unchanged, never a second `Ready` and never an abort or error;
a poll that yields `Ready` leaves the flag set (so all later polls are
`Pending` forever); and a poll releases `Ready` only after the inner
future completed in that poll and the returned reference's address passed
the check against the stored witness. -/
theorem poll_ready_exactly_once {T Fut σ ER R : Type}
    [IntoExtendMutReturn ER (MutRef T) R]
    (ip : Fut → σ → Outcome (Fut × σ × Poll ER))
    (self : ExtendMutFuture T Fut) (st : σ)
    (fut' : ExtendMutFuture T Fut) (st2 : σ) (r : R) :
    (self.ready = true →
      ∀ n, ExtendMutFuture.pollIter (R := R) ip n self st = .ok (self, st, .Pending)) ∧
    (ExtendMutFuture.poll ip self st = .ok (fut', st2, .Ready r) →
      fut'.ready = true ∧
      (∀ n s3, ExtendMutFuture.pollIter (R := R) ip n fut' s3 = .ok (fut', s3, .Pending)) ∧
      ∃ fut2 ret, ip self.future st = .ok (fut2, st2, .Ready ret) ∧
        (@into_extend_mut_return ER (MutRef T) R _ ret).1.addr = self.ptr ∧
        r = (@into_extend_mut_return ER (MutRef T) R _ ret).2) := by
  have key : ∀ (fu : ExtendMutFuture T Fut), fu.ready = true →
      ∀ n s, ExtendMutFuture.pollIter (R := R) ip n fu s = .ok (fu, s, .Pending) := by
    intro fu hfu n
    induction n with
    | zero =>
      intro s
      rw [ExtendMutFuture.pollIter]
      exact poll_pending_of_ready ip fu s hfu
    | succ n ih =>
      intro s
      rw [ExtendMutFuture.pollIter]
      rw [poll_pending_of_ready ip fu s hfu]
      exact ih s
  constructor
  · intro hr n
    exact key self hr n st
  · intro hpoll
    obtain ⟨hready, fut2, ret, hip, haddr, hr, hfut⟩ :=
      poll_ready_inversion ip self st fut' st2 r hpoll
    have hfr : fut'.ready = true := by rw [hfut]
    exact ⟨hfr, fun n s3 => key fut' hfr n s3, fut2, ret, hip, haddr, hr⟩

/-- Witness for C6 at concrete inputs: a completed future keeps
answering `Pending` under iterated polling, and a poll that completes an
inner future returning the original address yields `Ready` with the flag
set and keeps answering `Pending` afterwards. -/
theorem poll_ready_exactly_once_witness :
    ExtendMutFuture.pollIter (R := String)
      (fun (n : Nat) (s : Int) =>
        (.ok (n, s, .Pending) : Outcome (Nat × Int × Poll (MutRef Int × String))))
      2 (ExtendMutFuture.mk 100 0 true : ExtendMutFuture Int Nat) 7 =
      .ok (ExtendMutFuture.mk 100 0 true, 7, .Pending) ∧
    (ExtendMutFuture.mk 100 0 true : ExtendMutFuture Int Nat).ready = true ∧
    ExtendMutFuture.pollIter (R := String)
      (fun (_ : Nat) (s : Int) =>
        (.ok (0, s, .Ready (MutRef.mk 100, "done")) :
          Outcome (Nat × Int × Poll (MutRef Int × String))))
      3 (ExtendMutFuture.mk 100 0 true : ExtendMutFuture Int Nat) 9 =
      .ok (ExtendMutFuture.mk 100 0 true, 9, .Pending) :=
  ⟨(poll_ready_exactly_once _
      (ExtendMutFuture.mk 100 0 true : ExtendMutFuture Int Nat) 7
      (ExtendMutFuture.mk 100 0 true) 7 "x").1 rfl 2,
   ((poll_ready_exactly_once
      (fun (_ : Nat) (s : Int) =>
        (.ok (0, s, .Ready (MutRef.mk 100, "done")) :
          Outcome (Nat × Int × Poll (MutRef Int × String))))
      (ExtendMutFuture.mk 100 1 false : ExtendMutFuture Int Nat) 7
      (ExtendMutFuture.mk 100 0 true) 7 "done").2 rfl).1,
   ((poll_ready_exactly_once
      (fun (_ : Nat) (s : Int) =>
        (.ok (0, s, .Ready (MutRef.mk 100, "done")) :
          Outcome (Nat × Int × Poll (MutRef Int × String))))
      (ExtendMutFuture.mk 100 1 false : ExtendMutFuture Int Nat) 7
      (ExtendMutFuture.mk 100 0 true) 7 "done").2 rfl).2.1 3 9⟩

/-- C5: the future aborts on drop exactly when it has not yet yielded
`Ready`: dropping aborts if and only if the `ready` flag is unset; the
future created by `extend_mut_async` starts with the flag unset, so
dropping it right away aborts; and the future returned by a poll that
yielded `Ready` has the flag set, so dropping it afterwards does not
abort. -/
theorem drop_abort_iff_not_yet_ready {T Fut σ ER R : Type} [RustSized T]
    [IntoExtendMutReturn ER (MutRef T) R]
    (self other : ExtendMutFuture T Fut)
    (h : size_of T ≠ 0) (mr : MutRef T) (st st' : σ) (fut : Fut)
    (f : MutRef T → σ → Outcome (σ × Fut))
    (hf : f (MutRef.mk mr.addr) st = .ok (st', fut))
    (ip : Fut → σ → Outcome (Fut × σ × Poll ER))
    (fut' : ExtendMutFuture T Fut) (st2 st3 : σ) (r : R) :
    (self.drop =
        .aborted "Cannot drop ExtendMutFuture before it yields Poll::Ready" ↔
      self.ready = false) ∧
    (extend_mut_async mr st f =
        .ok (st', { ptr := mr.addr, future := fut, ready := false }) ∧
      ExtendMutFuture.drop (T := T)
          { ptr := mr.addr, future := fut, ready := false } =
        .aborted "Cannot drop ExtendMutFuture before it yields Poll::Ready") ∧
    (ExtendMutFuture.poll ip other st2 = .ok (fut', st3, .Ready r) →
      fut'.drop = .ok ()) := by
  refine ⟨?_, ⟨?_, ?_⟩, ?_⟩
  · cases hsr : self.ready <;>
      simp [ExtendMutFuture.drop, hsr, abort_no_unwind]
  · simp only [extend_mut_async]
    rw [hf]
    simp [h]
  · simp [ExtendMutFuture.drop, abort_no_unwind]
  · intro hpoll
    obtain ⟨-, fut2, ret, -, -, -, hfut⟩ :=
      poll_ready_inversion ip other st2 fut' st3 r hpoll
    rw [hfut]
    simp [ExtendMutFuture.drop]

/-- Witness for C5 at concrete inputs: a freshly created future aborts
when dropped; after the poll that yields `Ready`, dropping is a no-op. -/
theorem drop_abort_iff_not_yet_ready_witness :
    (ExtendMutFuture.mk 100 3 false : ExtendMutFuture Int Nat).drop =
      .aborted "Cannot drop ExtendMutFuture before it yields Poll::Ready" ∧
    extend_mut_async (MutRef.mk 100 : MutRef Int) (5 : Int)
      (fun _ s => (.ok (s, 3) : Outcome (Int × Nat))) =
      .ok (5, { ptr := 100, future := 3, ready := false }) ∧
    (ExtendMutFuture.mk 100 0 true : ExtendMutFuture Int Nat).drop = .ok () :=
  ⟨(@drop_abort_iff_not_yet_ready Int Nat Int (MutRef Int × String) String _ _
      (ExtendMutFuture.mk 100 3 false) (ExtendMutFuture.mk 100 1 false)
      (by decide) (MutRef.mk 100) (5 : Int) 5 3
      (fun _ s => .ok (s, 3)) rfl
      (fun (_ : Nat) (s : Int) => .ok (0, s, .Ready (MutRef.mk 100, "done")))
      (ExtendMutFuture.mk 100 0 true) 7 7 "done").1.mpr rfl,
   ((@drop_abort_iff_not_yet_ready Int Nat Int (MutRef Int × String) String _ _
      (ExtendMutFuture.mk 100 3 false) (ExtendMutFuture.mk 100 1 false)
      (by decide) (MutRef.mk 100) (5 : Int) 5 3
      (fun _ s => .ok (s, 3)) rfl
      (fun (_ : Nat) (s : Int) => .ok (0, s, .Ready (MutRef.mk 100, "done")))
      (ExtendMutFuture.mk 100 0 true) 7 7 "done").2.1).1,
   (@drop_abort_iff_not_yet_ready Int Nat Int (MutRef Int × String) String _ _
      (ExtendMutFuture.mk 100 3 false) (ExtendMutFuture.mk 100 1 false)
      (by decide) (MutRef.mk 100) (5 : Int) 5 3
      (fun _ s => .ok (s, 3)) rfl
      (fun (_ : Nat) (s : Int) => .ok (0, s, .Ready (MutRef.mk 100, "done")))
      (ExtendMutFuture.mk 100 0 true) 7 7 "done").2.2 rfl⟩

/-- C9: the empty group is the identity operation: `ExtendMut` for `()`
just invokes `f` on the empty group and projects the auxiliary payload of
its result — an unwind or an abort inside `f` passes through untouched,
and the impl itself captures no address, performs no check and introduces
no abort of its own; and the singleton group impl reduces directly to the
scalar primitive `extend_mut`. -/
theorem empty_group_identity {T1 σ R ER E2 R2 : Type} [RustSized T1]
    [i : IntoExtendMutReturn ER Unit R]
    [j : IntoExtendMutReturn E2 (Tup1 (MutRef T1)) R2]
    (f : Unit → σ → Outcome (σ × ER)) (st st' : σ) (er : ER) (m : String)
    (g : Tup1 (MutRef T1) → σ → Outcome (σ × E2)) (r1 : MutRef T1) :
    (f () st = .ok (st', er) →
      ExtendMut.extend_mut () st f = .ok (st', (i.into_extend_mut_return er).2)) ∧
    (f () st = .unwound → ExtendMut.extend_mut (R := R) () st f = .unwound) ∧
    (f () st = .aborted m → ExtendMut.extend_mut (R := R) () st f = .aborted m) ∧
    ExtendMut.extend_mut (Tup1.mk r1) st g =
      @extend_mut T1 σ (MutRef T1 × R2) R2 _ instIntoPair r1 st (fun x st1 =>
        match g (Tup1.mk x) st1 with
        | .ok (st2, er2) =>
          let (t, q) := j.into_extend_mut_return er2
          .ok (st2, (t.fst, q))
        | .unwound => .unwound
        | .aborted mm => .aborted mm
        | .compileError => .compileError) := by
  refine ⟨?_, ?_, ?_, rfl⟩
  · intro hf
    show (match f () st with
      | .ok (s2, e2) => .ok (s2, (i.into_extend_mut_return e2).2)
      | .unwound => .unwound
      | .aborted mm => .aborted mm
      | .compileError => .compileError : Outcome (σ × R)) = _
    rw [hf]
  · intro hf
    show (match f () st with
      | .ok (s2, e2) => .ok (s2, (i.into_extend_mut_return e2).2)
      | .unwound => .unwound
      | .aborted mm => .aborted mm
      | .compileError => .compileError : Outcome (σ × R)) = _
    rw [hf]
  · intro hf
    show (match f () st with
      | .ok (s2, e2) => .ok (s2, (i.into_extend_mut_return e2).2)
      | .unwound => .unwound
      | .aborted mm => .aborted mm
      | .compileError => .compileError : Outcome (σ × R)) = _
    rw [hf]

/-- A caller-side impl of the public trait `IntoExtendMutReturn` for the
empty group: the crate itself ships no impl with extended type `()`, so a
user of `ExtendMut for ()` supplies one; it is used only to instantiate
the empty-group theorem at concrete inputs. -/
def unitPayloadInto : IntoExtendMutReturn (Unit × String) Unit String :=
  ⟨fun p => p⟩

/-- Witness for C9 at concrete inputs: payload pass-through, unwind
pass-through and abort pass-through of the empty-group impl. -/
theorem empty_group_identity_witness :
    @ExtendMut.extend_mut Unit Unit instEMUnit Int String (Unit × String)
      unitPayloadInto () (5 : Int)
      (fun (_ : Unit) (s : Int) =>
        (.ok (s + 1, ((), "tag")) : Outcome (Int × (Unit × String)))) =
      .ok (6, "tag") ∧
    @ExtendMut.extend_mut Unit Unit instEMUnit Int String (Unit × String)
      unitPayloadInto () (5 : Int)
      (fun (_ : Unit) (_ : Int) =>
        (.unwound : Outcome (Int × (Unit × String)))) = .unwound ∧
    @ExtendMut.extend_mut Unit Unit instEMUnit Int String (Unit × String)
      unitPayloadInto () (5 : Int)
      (fun (_ : Unit) (_ : Int) =>
        (.aborted "boom" : Outcome (Int × (Unit × String)))) = .aborted "boom" :=
  have base := @empty_group_identity Int Int String (Unit × String)
    (Tup1 (MutRef Int) × String) String _ unitPayloadInto instIntoAny1
  ⟨(base (fun _ s => .ok (s + 1, ((), "tag"))) 5 6 ((), "tag") "boom"
      (fun t _ => .ok (5, (t, "z"))) (MutRef.mk 1)).1 rfl,
   (base (fun _ _ => .unwound) 5 6 ((), "tag") "boom"
      (fun t _ => .ok (5, (t, "z"))) (MutRef.mk 1)).2.1 rfl,
   (base (fun _ _ => .aborted "boom") 5 6 ((), "tag") "boom"
      (fun t _ => .ok (5, (t, "z"))) (MutRef.mk 1)).2.2.1 rfl⟩

/-- C4: for group arities 1 to 4, extending with the identity callback
leaves the state (every member's value) unchanged and succeeds, the
identity group passing every address check. -/
theorem extend_group_identity {T1 T2 T3 T4 σ : Type}
    [RustSized T1] [RustSized T2] [RustSized T3] [RustSized T4]
    (h1 : size_of T1 ≠ 0) (h2 : size_of T2 ≠ 0)
    (h3 : size_of T3 ≠ 0) (h4 : size_of T4 ≠ 0)
    (r1 : MutRef T1) (r2 : MutRef T2) (r3 : MutRef T3) (r4 : MutRef T4)
    (st : σ) :
    ExtendMut.extend_mut (Tup1.mk r1) st
      (fun g s => (.ok (s, g) : Outcome (σ × Tup1 (MutRef T1)))) = .ok (st, ()) ∧
    ExtendMut.extend_mut (r1, r2) st
      (fun g s => (.ok (s, g) : Outcome (σ × (MutRef T1 × MutRef T2)))) =
      .ok (st, ()) ∧
    ExtendMut.extend_mut (r1, r2, r3) st
      (fun g s =>
        (.ok (s, g) : Outcome (σ × (MutRef T1 × MutRef T2 × MutRef T3)))) =
      .ok (st, ()) ∧
    ExtendMut.extend_mut (r1, r2, r3, r4) st
      (fun g s =>
        (.ok (s, g) :
          Outcome (σ × (MutRef T1 × MutRef T2 × MutRef T3 × MutRef T4)))) =
      .ok (st, ()) := by
  refine ⟨?_, ?_, ?_, ?_⟩
  · simp [ExtendMut.extend_mut, instEM1, extend_mut, abort_on_unwind,
      into_extend_mut_return, instIntoUnit1, instIntoPair, h1]
  · simp [ExtendMut.extend_mut, instEM1, instEM2, extend_mut, abort_on_unwind,
      into_extend_mut_return, instIntoUnit2, instIntoAny1, instIntoPair, h1, h2]
  · simp [ExtendMut.extend_mut, instEM1, instEM2, instEM3, extend_mut,
      abort_on_unwind, into_extend_mut_return, instIntoUnit3, instIntoAny1,
      instIntoAny2, instIntoPair, h1, h2, h3]
  · simp [ExtendMut.extend_mut, instEM1, instEM2, instEM3, instEM4, extend_mut,
      abort_on_unwind, into_extend_mut_return, instIntoUnit4, instIntoAny1,
      instIntoAny2, instIntoAny3, instIntoPair, h1, h2, h3, h4]

/-- Witness for C4 at concrete types and addresses. -/
theorem extend_group_identity_witness :
    ExtendMut.extend_mut (Tup1.mk (MutRef.mk 1 : MutRef Int)) (5 : Int)
      (fun g s => (.ok (s, g) : Outcome (Int × Tup1 (MutRef Int)))) =
      .ok (5, ()) ∧
    ExtendMut.extend_mut ((MutRef.mk 1 : MutRef Int), (MutRef.mk 2 : MutRef Bool))
      (5 : Int)
      (fun g s => (.ok (s, g) : Outcome (Int × (MutRef Int × MutRef Bool)))) =
      .ok (5, ()) ∧
    ExtendMut.extend_mut
      ((MutRef.mk 1 : MutRef Int), (MutRef.mk 2 : MutRef Bool),
       (MutRef.mk 3 : MutRef Int)) (5 : Int)
      (fun g s =>
        (.ok (s, g) : Outcome (Int × (MutRef Int × MutRef Bool × MutRef Int)))) =
      .ok (5, ()) ∧
    ExtendMut.extend_mut
      ((MutRef.mk 1 : MutRef Int), (MutRef.mk 2 : MutRef Bool),
       (MutRef.mk 3 : MutRef Int), (MutRef.mk 4 : MutRef Bool)) (5 : Int)
      (fun g s =>
        (.ok (s, g) :
          Outcome (Int × (MutRef Int × MutRef Bool × MutRef Int × MutRef Bool)))) =
      .ok (5, ()) :=
  extend_group_identity (by decide) (by decide) (by decide) (by decide)
    (MutRef.mk 1) (MutRef.mk 2) (MutRef.mk 3) (MutRef.mk 4) 5
